import Mathlib

/-!
Shallow embedding of the image/vector composition engine of the qrgen
repository (src/imageComposer.js), with theorems settling the frozen claims.

Modelling conventions:
* JavaScript numbers are modelled as rationals (ℚ); all layout arithmetic in
  the source is exact on the inputs the claims quantify over.
* External collaborators (the canvas library `measureText` / `loadImage` /
  `toBuffer`, and the JSDOM parser) are parameters of the embedded functions:
  the embedding quantifies over all of their possible behaviours.
* JavaScript exceptions are modelled with `Except String`; a caught exception
  corresponds to matching on `Except.error`.
* Optional JS arguments are `Option` values.  Destructuring defaults
  (`const x = 24 = options` style, applied only when the field is undefined)
  are `Option.getD`; the looser `a || b` defaulting (applied when the value is
  falsy, i.e. undefined, empty string or 0) is `jsOrStr` / `jsOrNum` below.
* A canvas produced by a raster strategy is modelled by the geometric record
  of every drawing operation performed on it (`RasterCanvas`); the vector
  composition output is modelled by a structured document (`SvgDoc`) together
  with `renderSvgDoc`, which assembles exactly the string the source builds.
-/

/-- Text metrics as returned by `canvasUtils.measureText` (raster path) or
`svgUtils.estimateTextDimensions` (vector path). -/
structure TextMetrics where
  width : ℚ
  height : ℚ
  deriving DecidableEq, Repr

/-- `canvasConfig` object built in `createComposedImage` (imageComposer.js:164). -/
structure CanvasConfig where
  qrSize : ℚ
  padding : ℚ
  backgroundColor : String
  deriving DecidableEq, Repr

/-- The `style` part of a title configuration (imageComposer.js:172). -/
structure TextStyle where
  size : ℚ
  color : String
  font : String
  deriving DecidableEq, Repr

/-- `titleConfig` object (imageComposer.js:170). -/
structure TitleConfig where
  text : String
  style : TextStyle
  deriving DecidableEq, Repr

/-- The options object accepted by `createComposedImage` and
`formatComposers.svg` (imageComposer.js:144-153, 391-406); every field
optional, `none` standing for the JS `undefined`. -/
structure ComposeOptions where
  title : Option String := none
  titlePosition : Option String := none
  titleSize : Option ℚ := none
  titleColor : Option String := none
  titleFont : Option String := none
  backgroundColor : Option String := none
  imagePadding : Option ℚ := none
  qrSize : Option ℚ := none
  deriving DecidableEq, Repr

/-- JS `v || d` defaulting for strings: `undefined` and the empty string are
falsy. -/
def jsOrStr : Option String → String → String
  | none, d => d
  | some s, d => if s = "" then d else s

/-- JS `v || d` defaulting for numbers: `undefined` and `0` are falsy. -/
def jsOrNum : Option ℚ → ℚ → ℚ
  | none, d => d
  | some q, d => if q = 0 then d else q

/-- Model of the JS builtin `String.prototype.trim`: drop leading and
trailing whitespace. -/
def jsTrim (s : String) : String :=
  String.mk (((s.data.dropWhile Char.isWhitespace).reverse.dropWhile Char.isWhitespace).reverse)

/-- The blank-title guard `!title || title.trim() === ""` that short-circuits
composition (imageComposer.js:156, 382). -/
def blankTitle : Option String → Bool
  | none => true
  | some t => t == "" || jsTrim t == ""

/-- The canvas produced by a raster composition strategy, modelled by the
geometry of every drawing operation performed on it: dimensions and
background fill from `canvasUtils.createCanvas`, the centred `drawText` call,
and the `drawImage` call.  `γ` is the opaque decoded image type. -/
structure RasterCanvas (γ : Type) where
  width : ℚ
  height : ℚ
  backgroundColor : String
  titleText : String
  titleX : ℚ
  titleY : ℚ
  qrImage : γ
  qrX : ℚ
  qrY : ℚ
  qrW : ℚ
  qrH : ℚ

namespace compositionStrategies

/-- `compositionStrategies.titleTop` (imageComposer.js:79-104).  The
`measure` parameter stands for the external canvas text-measurement facility
used on the disposable off-screen context (the source passes the combined
font string built from the style size and family). -/
def titleTop {γ : Type} (measure : String → ℚ → String → TextMetrics)
    (canvasConfig : CanvasConfig) (qrImage : γ) (titleConfig : TitleConfig) :
    RasterCanvas γ :=
  let textMetrics := measure titleConfig.text titleConfig.style.size titleConfig.style.font
  let qrSize := canvasConfig.qrSize
  let totalWidth := max qrSize textMetrics.width + canvasConfig.padding * 2
  let totalHeight := qrSize + textMetrics.height + canvasConfig.padding * 3
  { width := totalWidth
    height := totalHeight
    backgroundColor := canvasConfig.backgroundColor
    titleText := titleConfig.text
    titleX := totalWidth / 2
    titleY := canvasConfig.padding + textMetrics.height / 2
    qrImage := qrImage
    qrX := (totalWidth - qrSize) / 2
    qrY := canvasConfig.padding + textMetrics.height + canvasConfig.padding
    qrW := qrSize
    qrH := qrSize }

/-- `compositionStrategies.titleBottom` (imageComposer.js:109-134). -/
def titleBottom {γ : Type} (measure : String → ℚ → String → TextMetrics)
    (canvasConfig : CanvasConfig) (qrImage : γ) (titleConfig : TitleConfig) :
    RasterCanvas γ :=
  let textMetrics := measure titleConfig.text titleConfig.style.size titleConfig.style.font
  let qrSize := canvasConfig.qrSize
  let totalWidth := max qrSize textMetrics.width + canvasConfig.padding * 2
  let totalHeight := qrSize + textMetrics.height + canvasConfig.padding * 3
  { width := totalWidth
    height := totalHeight
    backgroundColor := canvasConfig.backgroundColor
    titleText := titleConfig.text
    titleX := totalWidth / 2
    titleY := canvasConfig.padding + qrSize + canvasConfig.padding + textMetrics.height / 2
    qrImage := qrImage
    qrX := (totalWidth - qrSize) / 2
    qrY := canvasConfig.padding
    qrW := qrSize
    qrH := qrSize }

end compositionStrategies

/-- The body of the `try` block of `createComposedImage`
(imageComposer.js:160-188): load the image, build the configs, select the
strategy by position, compose, encode.  `loadImage` and `toBuffer` stand for
the external decode/encode operations, which may throw. -/
def composeAttempt {β γ : Type} (loadImage : β → Except String γ)
    (toBuffer : RasterCanvas γ → Except String β)
    (measure : String → ℚ → String → TextMetrics)
    (qrBuffer : β) (options : ComposeOptions) : Except String β := do
  let qrImage ← loadImage qrBuffer
  let canvasConfig : CanvasConfig :=
    { qrSize := options.qrSize.getD 256
      padding := options.imagePadding.getD 20
      backgroundColor := options.backgroundColor.getD "#FFFFFF" }
  let titleConfig : TitleConfig :=
    { text := jsTrim (options.title.getD "")
      style :=
        { size := options.titleSize.getD 24
          color := options.titleColor.getD "#333333"
          font := options.titleFont.getD "Arial" } }
  let composedCanvas :=
    if options.titlePosition.getD "bottom" = "top" then
      compositionStrategies.titleTop measure canvasConfig qrImage titleConfig
    else
      compositionStrategies.titleBottom measure canvasConfig qrImage titleConfig
  toBuffer composedCanvas

/-- `createComposedImage` (imageComposer.js:143-195): blank-title no-op path
returning the input buffer itself, otherwise the `try` body with the catch
branch returning the original buffer on any error. -/
def createComposedImage {β γ : Type} (loadImage : β → Except String γ)
    (toBuffer : RasterCanvas γ → Except String β)
    (measure : String → ℚ → String → TextMetrics)
    (qrBuffer : β) (options : ComposeOptions) : β :=
  if blankTitle options.title then qrBuffer
  else
    match composeAttempt loadImage toBuffer measure qrBuffer options with
    | Except.ok b => b
    | Except.error _ => qrBuffer

/-- View-box of a parsed vector document (imageComposer.js:217). -/
structure ViewBox where
  x : ℚ
  y : ℚ
  width : ℚ
  height : ℚ
  deriving DecidableEq, Repr

/-- The root element of a parsed vector document, reduced to the only part of
the DOM node that `composeWithTitle` reads: its inner markup
(imageComposer.js:318). -/
structure SvgElement where
  innerHTML : String
  deriving DecidableEq, Repr

/-- Result of `svgUtils.parseSVG` (imageComposer.js:206-221).  The element is
optional: a degenerate parse can hand `composeWithTitle` a null element, whose
member access then throws. -/
structure SvgInfo where
  element : Option SvgElement
  viewBox : ViewBox
  originalWidth : ℚ
  originalHeight : ℚ
  deriving DecidableEq, Repr

/-- The `compositionConfig` consumed by `composeWithTitle`
(imageComposer.js:270, 401-406).  `qrSize` is optional because the source
guards it with `qrSize || viewBox.width`. -/
structure CompositionConfig where
  position : String
  padding : ℚ
  backgroundColor : String
  qrSize : Option ℚ
  deriving DecidableEq, Repr

/-- Argument record of `svgUtils.estimateTextDimensions`
(imageComposer.js:250). -/
structure TextConfig where
  text : String
  size : ℚ
  font : String
  deriving DecidableEq, Repr

namespace svgUtils

/-- `svgUtils.estimateTextDimensions` (imageComposer.js:250-257):
`charWidth = size * 0.6`, `width = text.length * charWidth`,
`height = size`.  The font field is accepted but unused. -/
def estimateTextDimensions (textConfig : TextConfig) : TextMetrics :=
  let charWidth := textConfig.size * 0.6
  { width := (textConfig.text.length : ℚ) * charWidth
    height := textConfig.size }

/-- The layout quantities computed by `composeWithTitle`
(imageComposer.js:272-313): every numeric local of the function body. -/
structure SvgLayout where
  textW : ℚ
  textH : ℚ
  qrW : ℚ
  qrH : ℚ
  totalWidth : ℚ
  totalHeight : ℚ
  qrX : ℚ
  textX : ℚ
  qrY : ℚ
  textY : ℚ
  baseScale : ℚ
  enhancedScale : ℚ
  scaledQrX : ℚ
  scaledQrY : ℚ
  deriving DecidableEq, Repr

/-- The numeric part of `svgUtils.composeWithTitle`
(imageComposer.js:272-313), formula by formula. -/
def svgLayout (vb : ViewBox) (titleConfig : TitleConfig)
    (c : CompositionConfig) : SvgLayout :=
  let td := estimateTextDimensions
    { text := titleConfig.text, size := titleConfig.style.size, font := titleConfig.style.font }
  let qrWidth := jsOrNum c.qrSize vb.width
  let qrHeight := jsOrNum c.qrSize vb.height
  let totalWidth := max qrWidth td.width + c.padding * 2
  let totalHeight := qrHeight + td.height + c.padding * 3
  let qrX := (totalWidth - qrWidth) / 2
  let textX := totalWidth / 2
  let qrY := if c.position = "top" then c.padding + td.height + c.padding else c.padding
  let textY :=
    if c.position = "top" then c.padding + td.height / 2
    else c.padding + qrHeight + c.padding + td.height / 2
  let baseScale := qrWidth / vb.width
  let enhancedScale := max baseScale 2
  { textW := td.width
    textH := td.height
    qrW := qrWidth
    qrH := qrHeight
    totalWidth := totalWidth
    totalHeight := totalHeight
    qrX := qrX
    textX := textX
    qrY := qrY
    textY := textY
    baseScale := baseScale
    enhancedScale := enhancedScale
    scaledQrX := qrX + (qrWidth - vb.width * enhancedScale) / 2
    scaledQrY := qrY + (qrHeight - vb.height * enhancedScale) / 2 }

/-- The structured content of the document string assembled by
`composeWithTitle` (imageComposer.js:298-326): layout numbers, the optional
background rectangle, the wrapped original content and the title text node. -/
structure SvgDoc where
  layout : SvgLayout
  bgRect : Option (ℚ × ℚ × String)
  innerContent : String
  text : String
  fontFamily : String
  fontSize : ℚ
  fillColor : String
  deriving DecidableEq, Repr

/-- Builds the structured document exactly as `composeWithTitle` assembles
its output: the background rectangle is emitted iff
`backgroundColor && backgroundColor !== "#FFFFFF"` (imageComposer.js:302). -/
def buildSvgDoc (el : SvgElement) (vb : ViewBox) (titleConfig : TitleConfig)
    (c : CompositionConfig) : SvgDoc :=
  let L := svgLayout vb titleConfig c
  { layout := L
    bgRect :=
      if c.backgroundColor ≠ "" ∧ c.backgroundColor ≠ "#FFFFFF" then
        some (L.totalWidth, L.totalHeight, c.backgroundColor)
      else none
    innerContent := el.innerHTML
    text := titleConfig.text
    fontFamily := titleConfig.style.font
    fontSize := titleConfig.style.size
    fillColor := titleConfig.style.color }

/-- Serialises `SvgDoc` into the markup string the source concatenates
(imageComposer.js:299-326).  Number formatting is Lean's rational printing;
it abstracts the JS numeral formatting, which the claims never inspect. -/
def renderSvgDoc (d : SvgDoc) : String :=
  let L := d.layout
  "<svg viewBox=\"0 0 " ++ toString L.totalWidth ++ " " ++ toString L.totalHeight ++
    "\" width=\"" ++ toString L.totalWidth ++ "\" height=\"" ++ toString L.totalHeight ++
    "\" xmlns=\"http://www.w3.org/2000/svg\">" ++
  (match d.bgRect with
   | none => ""
   | some (w, h, f) =>
     "<rect width=\"" ++ toString w ++ "\" height=\"" ++ toString h ++
       "\" fill=\"" ++ f ++ "\"/>") ++
  "<g transform=\"translate(" ++ toString L.scaledQrX ++ ", " ++ toString L.scaledQrY ++
    ") scale(" ++ toString L.enhancedScale ++ ")\">" ++
  d.innerContent ++
  "</g>" ++
  "<text x=\"" ++ toString L.textX ++ "\" y=\"" ++ toString L.textY ++
    "\" text-anchor=\"middle\" dominant-baseline=\"central\" font-family=\"" ++
    d.fontFamily ++ "\" font-size=\"" ++ toString d.fontSize ++ "\" fill=\"" ++
    d.fillColor ++ "\">" ++ d.text ++ "</text>" ++
  "</svg>"

/-- `svgUtils.composeWithTitle` (imageComposer.js:266-334).  Member access on
a null root element throws; the try/catch re-raises every error, so errors
pass through unchanged. -/
def composeWithTitle (svgInfo : SvgInfo) (titleConfig : TitleConfig)
    (c : CompositionConfig) : Except String String :=
  match svgInfo.element with
  | none => Except.error "TypeError: cannot read innerHTML of null"
  | some el => Except.ok (renderSvgDoc (buildSvgDoc el svgInfo.viewBox titleConfig c))

end svgUtils

/-- The `titleConfig` the svg format composer builds from its options
(imageComposer.js:391-398), with the falsy-`||` defaults of the source. -/
def titleConfigOf (o : ComposeOptions) : TitleConfig :=
  { text := jsTrim (o.title.getD "")
    style :=
      { size := jsOrNum o.titleSize 24
        color := jsOrStr o.titleColor "#333333"
        font := jsOrStr o.titleFont "Arial" } }

/-- The `compositionConfig` the svg format composer builds from its options
(imageComposer.js:401-406). -/
def compositionConfigOf (o : ComposeOptions) : CompositionConfig :=
  { position := jsOrStr o.titlePosition "bottom"
    padding := jsOrNum o.imagePadding 20
    backgroundColor := jsOrStr o.backgroundColor "#FFFFFF"
    qrSize := some (jsOrNum o.qrSize 256) }

/-- The body of the `try` block of `formatComposers.svg`
(imageComposer.js:386-409): parse, then compose.  `parse` stands for
`svgUtils.parseSVG`, whose JSDOM backend may throw. -/
def svgComposeAttempt (parse : String → Except String SvgInfo)
    (qrData : String) (o : ComposeOptions) : Except String String := do
  let svgInfo ← parse qrData
  svgUtils.composeWithTitle svgInfo (titleConfigOf o) (compositionConfigOf o)

namespace formatComposers

/-- `formatComposers.svg` (imageComposer.js:380-416): blank-title no-op path
returning the input markup itself, otherwise parse-and-compose with the catch
branch returning the original markup on any error. -/
def svg (parse : String → Except String SvgInfo)
    (qrData : String) (options : Option ComposeOptions) : String :=
  match options with
  | none => qrData
  | some o =>
    if blankTitle o.title then qrData
    else
      match svgComposeAttempt parse qrData o with
      | Except.ok s => s
      | Except.error _ => qrData

end formatComposers

/-- Claim C1: for every non-empty title text with positive font size and
non-negative padding, the raster titleTop strategy produces a canvas whose
total height equals qrSize + measured text height + 3*padding and whose total
width equals max(qrSize, measured text width) + 2*padding, with the title
vertical center at padding + textHeight/2 and the QR top edge at
padding + textHeight + padding. -/
theorem claim_C1_titleTop_layout {γ : Type}
    (measure : String → ℚ → String → TextMetrics)
    (cfg : CanvasConfig) (img : γ) (t : TitleConfig)
    (ht : t.text ≠ "") (hs : 0 < t.style.size) (hp : 0 ≤ cfg.padding) :
    (compositionStrategies.titleTop measure cfg img t).height =
      cfg.qrSize + (measure t.text t.style.size t.style.font).height + 3 * cfg.padding ∧
    (compositionStrategies.titleTop measure cfg img t).width =
      max cfg.qrSize (measure t.text t.style.size t.style.font).width + 2 * cfg.padding ∧
    (compositionStrategies.titleTop measure cfg img t).titleY =
      cfg.padding + (measure t.text t.style.size t.style.font).height / 2 ∧
    (compositionStrategies.titleTop measure cfg img t).qrY =
      cfg.padding + (measure t.text t.style.size t.style.font).height + cfg.padding := by
  refine ⟨?_, ?_, rfl, rfl⟩ <;> simp [compositionStrategies.titleTop] <;> ring

/-- Witness for C1 at a concrete input: text metrics 100 by 30, qrSize 256,
padding 20 give total height 346, width 296, title center 35, QR top 70. -/
theorem claim_C1_titleTop_layout_witness :
    (compositionStrategies.titleTop (fun _ _ _ => ⟨100, 30⟩)
        ⟨256, 20, "#FFFFFF"⟩ () ⟨"Hello", ⟨24, "#333333", "Arial"⟩⟩).height = 346 ∧
    (compositionStrategies.titleTop (fun _ _ _ => ⟨100, 30⟩)
        ⟨256, 20, "#FFFFFF"⟩ () ⟨"Hello", ⟨24, "#333333", "Arial"⟩⟩).width = 296 ∧
    (compositionStrategies.titleTop (fun _ _ _ => ⟨100, 30⟩)
        ⟨256, 20, "#FFFFFF"⟩ () ⟨"Hello", ⟨24, "#333333", "Arial"⟩⟩).titleY = 35 ∧
    (compositionStrategies.titleTop (fun _ _ _ => ⟨100, 30⟩)
        ⟨256, 20, "#FFFFFF"⟩ () ⟨"Hello", ⟨24, "#333333", "Arial"⟩⟩).qrY = 70 := by
  have h := claim_C1_titleTop_layout (fun _ _ _ => (⟨100, 30⟩ : TextMetrics))
    ⟨256, 20, "#FFFFFF"⟩ () ⟨"Hello", ⟨24, "#333333", "Arial"⟩⟩
    (by decide) (by norm_num) (by norm_num)
  obtain ⟨h1, h2, h3, h4⟩ := h
  refine ⟨?_, ?_, ?_, ?_⟩
  · rw [h1]; norm_num
  · rw [h2]; norm_num
  · rw [h3]; norm_num
  · rw [h4]; norm_num

/-- Claim C5: estimateTextDimensions returns width = text.length * size * 0.6
and height = size; for the empty text the width is 0, for text "" with size
24 the result is width 0 and height 24; the result does not depend on the
font field. -/
theorem claim_C5_estimateTextDimensions (tc : TextConfig) :
    (svgUtils.estimateTextDimensions tc).width = (tc.text.length : ℚ) * tc.size * 0.6 ∧
    (svgUtils.estimateTextDimensions tc).height = tc.size ∧
    (tc.text = "" → (svgUtils.estimateTextDimensions tc).width = 0) ∧
    svgUtils.estimateTextDimensions ⟨"", 24, "Arial"⟩ = ⟨0, 24⟩ ∧
    (∀ f, svgUtils.estimateTextDimensions { tc with font := f } =
      svgUtils.estimateTextDimensions tc) := by
  refine ⟨?_, rfl, ?_, ?_, fun f => rfl⟩
  · simp [svgUtils.estimateTextDimensions]; ring
  · intro h
    simp [svgUtils.estimateTextDimensions, h]
  · have : (("" : String).length : ℚ) = 0 := by norm_num
    simp [svgUtils.estimateTextDimensions]

/-- Witness for C5 at a concrete input: the text "Hello World" at size 24
measures 158.4 wide and 24 high. -/
theorem claim_C5_estimateTextDimensions_witness :
    (svgUtils.estimateTextDimensions ⟨"Hello World", 24, "Arial"⟩).width = 792 / 5 ∧
    (svgUtils.estimateTextDimensions ⟨"Hello World", 24, "Arial"⟩).height = 24 := by
  have h := claim_C5_estimateTextDimensions ⟨"Hello World", 24, "Arial"⟩
  refine ⟨?_, h.2.1⟩
  rw [h.1]
  have hlen : ("Hello World".length : ℕ) = 11 := rfl
  rw [hlen]
  norm_num

/-- Claim C10: titleTop and titleBottom produce canvases with equal total
width and height, and the vector layout total width and height do not depend
on the position value. -/
theorem claim_C10_dimensions_position_independent {γ : Type}
    (measure : String → ℚ → String → TextMetrics)
    (cfg : CanvasConfig) (img : γ) (t : TitleConfig)
    (vb : ViewBox) (c : CompositionConfig) (p q : String) :
    (compositionStrategies.titleTop measure cfg img t).width =
      (compositionStrategies.titleBottom measure cfg img t).width ∧
    (compositionStrategies.titleTop measure cfg img t).height =
      (compositionStrategies.titleBottom measure cfg img t).height ∧
    (svgUtils.svgLayout vb t { c with position := p }).totalWidth =
      (svgUtils.svgLayout vb t { c with position := q }).totalWidth ∧
    (svgUtils.svgLayout vb t { c with position := p }).totalHeight =
      (svgUtils.svgLayout vb t { c with position := q }).totalHeight :=
  ⟨rfl, rfl, rfl, rfl⟩

/-- Claim C2: if the title option is absent or trims to the empty string,
both createComposedImage and the svg format composer return the original
input artifact itself, unchanged. -/
theorem claim_C2_blank_title_identity {β γ : Type}
    (loadImage : β → Except String γ) (toBuffer : RasterCanvas γ → Except String β)
    (measure : String → ℚ → String → TextMetrics)
    (parse : String → Except String SvgInfo)
    (qrBuffer : β) (qrData : String) (o : ComposeOptions)
    (h : o.title = none ∨ ∃ t, o.title = some t ∧ jsTrim t = "") :
    createComposedImage loadImage toBuffer measure qrBuffer o = qrBuffer ∧
    formatComposers.svg parse qrData (some o) = qrData ∧
    formatComposers.svg parse qrData none = qrData := by
  have hb : blankTitle o.title = true := by
    rcases h with h | ⟨t, ht, htrim⟩
    · simp [h, blankTitle]
    · simp [ht, blankTitle, htrim]
  exact ⟨by simp [createComposedImage, hb], by simp [formatComposers.svg, hb], rfl⟩

/-- Witness for C2 at concrete inputs: options without a title field, for a
raster buffer 5 and the markup string of a bare svg element. -/
theorem claim_C2_blank_title_identity_witness :
    createComposedImage (fun _ : ℕ => Except.ok ()) (fun _ => Except.ok 1)
      (fun _ _ _ => ⟨0, 0⟩) 5 {} = 5 ∧
    formatComposers.svg (fun _ => Except.error "parse") "<svg/>" (some {}) = "<svg/>" ∧
    formatComposers.svg (fun _ => Except.error "parse") "<svg/>" none = "<svg/>" :=
  claim_C2_blank_title_identity _ _ _ _ 5 "<svg/>" {} (Or.inl rfl)

/-- Claim C6: with a present non-blank title, any exception inside the try
body of createComposedImage (decode, composition or encoding) is caught and
the function returns exactly the original input buffer; it never raises. -/
theorem claim_C6_raster_error_fallback {β γ : Type}
    (loadImage : β → Except String γ) (toBuffer : RasterCanvas γ → Except String β)
    (measure : String → ℚ → String → TextMetrics)
    (qrBuffer : β) (o : ComposeOptions) (e : String)
    (hnb : blankTitle o.title = false)
    (herr : composeAttempt loadImage toBuffer measure qrBuffer o = Except.error e) :
    createComposedImage loadImage toBuffer measure qrBuffer o = qrBuffer := by
  simp [createComposedImage, hnb, herr]

/-- Witness for C6 at a concrete input: a decoder that always throws makes
createComposedImage return the input buffer 7. -/
theorem claim_C6_raster_error_fallback_witness :
    blankTitle (some "Hi") = false ∧
    composeAttempt (fun _ : ℕ => (Except.error "decode" : Except String Unit))
      (fun _ => Except.ok 9) (fun _ _ _ => ⟨0, 0⟩) 7 { title := some "Hi" } =
      Except.error "decode" ∧
    createComposedImage (fun _ : ℕ => (Except.error "decode" : Except String Unit))
      (fun _ => Except.ok 9) (fun _ _ _ => ⟨0, 0⟩) 7 { title := some "Hi" } = 7 :=
  ⟨by decide, rfl,
   claim_C6_raster_error_fallback _ _ _ 7 { title := some "Hi" } "decode" (by decide) rfl⟩

/-- Claim C7: an exception inside composeWithTitle propagates out of that
function, and the svg format composer catches every pipeline exception and
returns the original vector markup string unchanged, never raising for a
string input. -/
theorem claim_C7_svg_error_policy
    (info : SvgInfo) (t : TitleConfig) (c : CompositionConfig)
    (parse : String → Except String SvgInfo) (qrData : String)
    (o : ComposeOptions) (e : String)
    (hel : info.element = none)
    (hnb : blankTitle o.title = false)
    (herr : svgComposeAttempt parse qrData o = Except.error e) :
    (∃ msg, svgUtils.composeWithTitle info t c = Except.error msg) ∧
    formatComposers.svg parse qrData (some o) = qrData := by
  refine ⟨⟨"TypeError: cannot read innerHTML of null", ?_⟩, ?_⟩
  · simp [svgUtils.composeWithTitle, hel]
  · simp [formatComposers.svg, hnb, herr]

/-- Witness for C7 at concrete inputs: a parse-less svgInfo with a null root
element makes composeWithTitle raise, and a throwing parser makes the svg
composer return the original markup. -/
theorem claim_C7_svg_error_policy_witness :
    (∃ msg, svgUtils.composeWithTitle ⟨none, ⟨0, 0, 256, 256⟩, 256, 256⟩
      ⟨"Hi", ⟨24, "#333333", "Arial"⟩⟩ ⟨"bottom", 20, "#FFFFFF", some 256⟩ =
      Except.error msg) ∧
    formatComposers.svg (fun _ => Except.error "parse") "<svg/>"
      (some { title := some "Hi" }) = "<svg/>" :=
  claim_C7_svg_error_policy ⟨none, ⟨0, 0, 256, 256⟩, 256, 256⟩
    ⟨"Hi", ⟨24, "#333333", "Arial"⟩⟩ ⟨"bottom", 20, "#FFFFFF", some 256⟩
    (fun _ => Except.error "parse") "<svg/>" { title := some "Hi" } "parse"
    rfl (by decide) rfl

/-- Claim C3: for every non-blank title and both positions, composed
dimensions satisfy width >= max(qr-width, text-width) + 2*padding and
height >= qr-height + text-height + 3*padding, the height strictly exceeds
the QR footprint height, and the width strictly exceeds the QR footprint
width whenever the text is wider than the QR, in both back-ends. -/
theorem claim_C3_footprint_growth {γ : Type}
    (measure : String → ℚ → String → TextMetrics)
    (cfg : CanvasConfig) (img : γ) (t : TitleConfig)
    (vb : ViewBox) (c : CompositionConfig)
    (hnb : t.text ≠ "")
    (hp : 0 ≤ cfg.padding)
    (hth : 0 < (measure t.text t.style.size t.style.font).height)
    (hs : 0 < t.style.size) (hcp : 0 ≤ c.padding) :
    (max cfg.qrSize (measure t.text t.style.size t.style.font).width + 2 * cfg.padding ≤
      (compositionStrategies.titleTop measure cfg img t).width) ∧
    (cfg.qrSize + (measure t.text t.style.size t.style.font).height + 3 * cfg.padding ≤
      (compositionStrategies.titleTop measure cfg img t).height) ∧
    cfg.qrSize < (compositionStrategies.titleTop measure cfg img t).height ∧
    cfg.qrSize < (compositionStrategies.titleBottom measure cfg img t).height ∧
    ((measure t.text t.style.size t.style.font).width > cfg.qrSize →
      cfg.qrSize < (compositionStrategies.titleTop measure cfg img t).width ∧
      cfg.qrSize < (compositionStrategies.titleBottom measure cfg img t).width) ∧
    (max (svgUtils.svgLayout vb t c).qrW (svgUtils.svgLayout vb t c).textW + 2 * c.padding ≤
      (svgUtils.svgLayout vb t c).totalWidth) ∧
    ((svgUtils.svgLayout vb t c).qrH + (svgUtils.svgLayout vb t c).textH + 3 * c.padding ≤
      (svgUtils.svgLayout vb t c).totalHeight) ∧
    (svgUtils.svgLayout vb t c).qrH < (svgUtils.svgLayout vb t c).totalHeight ∧
    ((svgUtils.svgLayout vb t c).textW > (svgUtils.svgLayout vb t c).qrW →
      (svgUtils.svgLayout vb t c).qrW < (svgUtils.svgLayout vb t c).totalWidth) := by
  have hw := le_max_right cfg.qrSize (measure t.text t.style.size t.style.font).width
  have hvw := le_max_right (svgUtils.svgLayout vb t c).qrW (svgUtils.svgLayout vb t c).textW
  refine ⟨?_, ?_, ?_, ?_, fun hgt => ⟨?_, ?_⟩, ?_, ?_, ?_, fun hgt => ?_⟩
  · simp [compositionStrategies.titleTop]; linarith
  · simp [compositionStrategies.titleTop]; linarith
  · simp [compositionStrategies.titleTop]; linarith
  · simp [compositionStrategies.titleBottom]; linarith
  · simp only [compositionStrategies.titleTop]; linarith
  · simp only [compositionStrategies.titleBottom]; linarith
  · simp only [svgUtils.svgLayout]; linarith
  · simp only [svgUtils.svgLayout, svgUtils.estimateTextDimensions]; linarith
  · simp only [svgUtils.svgLayout, svgUtils.estimateTextDimensions]; linarith
  · simp only [svgUtils.svgLayout] at hgt hvw ⊢; linarith

/-- Witness for C3 at a concrete input: text metrics 300 by 30 (wider than
the 256 QR), qrSize 256, padding 20, and a 32-unit source view-box with a
"Hi" title at size 24. -/
theorem claim_C3_footprint_growth_witness :
    ("Hi" ≠ "" ∧ (0:ℚ) ≤ 20 ∧ (0:ℚ) < 30 ∧ (0:ℚ) < 24) ∧
    (max (256:ℚ) 300 + 2 * 20 ≤
      (compositionStrategies.titleTop (fun _ _ _ => ⟨300, 30⟩)
        ⟨256, 20, "#FFFFFF"⟩ () ⟨"Hi", ⟨24, "#333333", "Arial"⟩⟩).width) ∧
    ((256:ℚ) < (compositionStrategies.titleTop (fun _ _ _ => ⟨300, 30⟩)
        ⟨256, 20, "#FFFFFF"⟩ () ⟨"Hi", ⟨24, "#333333", "Arial"⟩⟩).height) := by
  have h := claim_C3_footprint_growth (fun _ _ _ => (⟨300, 30⟩ : TextMetrics))
    ⟨256, 20, "#FFFFFF"⟩ () ⟨"Hi", ⟨24, "#333333", "Arial"⟩⟩
    ⟨0, 0, 32, 32⟩ ⟨"bottom", 20, "#FFFFFF", some 256⟩
    (by decide) (by norm_num) (by norm_num) (by norm_num) (by norm_num)
  exact ⟨⟨by decide, by norm_num, by norm_num, by norm_num⟩, h.1, h.2.2.1⟩

/-- Claim C4: in vector composition, for a source view-box of positive width,
the applied scale equals max(qrWidth / viewBox.width, 2), and the translation
keeps the scaled graphic centered in its allotted qrWidth-by-qrHeight box. -/
theorem claim_C4_scale_and_centering
    (vb : ViewBox) (t : TitleConfig) (c : CompositionConfig)
    (hw : 0 < vb.width) :
    (svgUtils.svgLayout vb t c).enhancedScale =
      max ((svgUtils.svgLayout vb t c).qrW / vb.width) 2 ∧
    2 ≤ (svgUtils.svgLayout vb t c).enhancedScale ∧
    (svgUtils.svgLayout vb t c).scaledQrX +
        vb.width * (svgUtils.svgLayout vb t c).enhancedScale / 2 =
      (svgUtils.svgLayout vb t c).qrX + (svgUtils.svgLayout vb t c).qrW / 2 ∧
    (svgUtils.svgLayout vb t c).scaledQrY +
        vb.height * (svgUtils.svgLayout vb t c).enhancedScale / 2 =
      (svgUtils.svgLayout vb t c).qrY + (svgUtils.svgLayout vb t c).qrH / 2 := by
  refine ⟨rfl, ?_, ?_, ?_⟩
  · have h : (svgUtils.svgLayout vb t c).enhancedScale =
        max (svgUtils.svgLayout vb t c).baseScale 2 := rfl
    rw [h]
    exact le_max_right _ _
  · simp only [svgUtils.svgLayout]; ring
  · simp only [svgUtils.svgLayout]; ring

/-- Witness for C4 at a concrete input: a 32-unit view-box embedded at
qrSize 256 gives enhanced scale 8 = max(256/32, 2). -/
theorem claim_C4_scale_and_centering_witness :
    (svgUtils.svgLayout ⟨0, 0, 32, 32⟩ ⟨"Hi", ⟨24, "#333333", "Arial"⟩⟩
      ⟨"bottom", 20, "#FFFFFF", some 256⟩).enhancedScale = 8 := by
  have h := claim_C4_scale_and_centering ⟨0, 0, 32, 32⟩
    ⟨"Hi", ⟨24, "#333333", "Arial"⟩⟩ ⟨"bottom", 20, "#FFFFFF", some 256⟩ (by norm_num)
  rw [h.1]
  have hq : (svgUtils.svgLayout ⟨0, 0, 32, 32⟩ ⟨"Hi", ⟨24, "#333333", "Arial"⟩⟩
      ⟨"bottom", 20, "#FFFFFF", some 256⟩).qrW = 256 := by
    simp [svgUtils.svgLayout, jsOrNum]
  rw [hq]
  norm_num

/-- Claim C8: vector composition emits a background rectangle of the total
dimensions filled with the configured backgroundColor iff the background
color differs from pure white; with the default background no rectangle is
emitted. -/
theorem claim_C8_background_rect_iff (el : SvgElement) (vb : ViewBox)
    (t : TitleConfig) (c : CompositionConfig)
    (hbg : c.backgroundColor ≠ "") :
    ((svgUtils.buildSvgDoc el vb t c).bgRect =
        some ((svgUtils.svgLayout vb t c).totalWidth,
          (svgUtils.svgLayout vb t c).totalHeight, c.backgroundColor) ↔
      c.backgroundColor ≠ "#FFFFFF") ∧
    (c.backgroundColor = "#FFFFFF" → (svgUtils.buildSvgDoc el vb t c).bgRect = none) := by
  by_cases hw : c.backgroundColor = "#FFFFFF"
  · refine ⟨?_, fun _ => ?_⟩ <;> simp [svgUtils.buildSvgDoc, hw]
  · refine ⟨?_, fun hcon => absurd hcon hw⟩
    simp [svgUtils.buildSvgDoc, hbg, hw]

/-- Witness for C8 at a concrete input: background color F0F0F0 yields the
background rectangle at the total dimensions 296 by 340. -/
theorem claim_C8_background_rect_iff_witness :
    (svgUtils.buildSvgDoc ⟨"<g/>"⟩ ⟨0, 0, 32, 32⟩ ⟨"Hi", ⟨24, "#333333", "Arial"⟩⟩
      ⟨"bottom", 20, "#F0F0F0", some 256⟩).bgRect = some (296, 340, "#F0F0F0") := by
  have h := (claim_C8_background_rect_iff ⟨"<g/>"⟩ ⟨0, 0, 32, 32⟩
    ⟨"Hi", ⟨24, "#333333", "Arial"⟩⟩ ⟨"bottom", 20, "#F0F0F0", some 256⟩
    (by decide)).1.mpr (by decide)
  rw [h]
  have hlen : ("Hi".length : ℕ) = 2 := rfl
  norm_num [svgUtils.svgLayout, svgUtils.estimateTextDimensions, jsOrNum, hlen]

/-- Claim C9: with position top the title vertical coordinate is strictly
less than the QR vertical coordinate, and with position bottom or any other
value the QR vertical coordinate is strictly less than the title one, in the
raster strategies and in the vector layout. -/
theorem claim_C9_title_qr_ordering {γ : Type}
    (measure : String → ℚ → String → TextMetrics) (cfg : CanvasConfig) (img : γ)
    (t : TitleConfig) (vb : ViewBox) (c : CompositionConfig)
    (hth : 0 < (measure t.text t.style.size t.style.font).height)
    (hp : 0 ≤ cfg.padding) (hq : 0 ≤ cfg.qrSize)
    (hs : 0 < t.style.size) (hcp : 0 ≤ c.padding)
    (hvh : 0 ≤ vb.height) (hcq : ∀ q, c.qrSize = some q → 0 ≤ q) :
    ((compositionStrategies.titleTop measure cfg img t).titleY <
      (compositionStrategies.titleTop measure cfg img t).qrY) ∧
    ((compositionStrategies.titleBottom measure cfg img t).qrY <
      (compositionStrategies.titleBottom measure cfg img t).titleY) ∧
    (c.position = "top" →
      (svgUtils.svgLayout vb t c).textY < (svgUtils.svgLayout vb t c).qrY) ∧
    (c.position ≠ "top" →
      (svgUtils.svgLayout vb t c).qrY < (svgUtils.svgLayout vb t c).textY) := by
  have hqrH : 0 ≤ jsOrNum c.qrSize vb.height := by
    cases hc : c.qrSize with
    | none => simpa [jsOrNum] using hvh
    | some q =>
      have hq0 := hcq q hc
      by_cases h0 : q = 0
      · simpa [jsOrNum, h0] using hvh
      · simpa [jsOrNum, h0] using hq0
  refine ⟨?_, ?_, fun hpos => ?_, fun hpos => ?_⟩
  · simp only [compositionStrategies.titleTop]; linarith
  · simp only [compositionStrategies.titleBottom]; linarith
  · simp only [svgUtils.svgLayout, svgUtils.estimateTextDimensions]
    rw [if_pos hpos, if_pos hpos]
    linarith
  · simp only [svgUtils.svgLayout, svgUtils.estimateTextDimensions]
    rw [if_neg hpos, if_neg hpos]
    linarith

/-- Witness for C9 at concrete inputs: metrics 100 by 30 on a 256 QR with
padding 20, and a vector layout with position bottom. -/
theorem claim_C9_title_qr_ordering_witness :
    ((0:ℚ) < 30 ∧ (0:ℚ) ≤ 20 ∧ (0:ℚ) ≤ 256 ∧ (0:ℚ) < 24 ∧ (0:ℚ) ≤ 32) ∧
    ((compositionStrategies.titleTop (fun _ _ _ => ⟨100, 30⟩)
        ⟨256, 20, "#FFFFFF"⟩ () ⟨"Hi", ⟨24, "#333333", "Arial"⟩⟩).titleY <
      (compositionStrategies.titleTop (fun _ _ _ => ⟨100, 30⟩)
        ⟨256, 20, "#FFFFFF"⟩ () ⟨"Hi", ⟨24, "#333333", "Arial"⟩⟩).qrY) ∧
    ((svgUtils.svgLayout ⟨0, 0, 32, 32⟩ ⟨"Hi", ⟨24, "#333333", "Arial"⟩⟩
        ⟨"bottom", 20, "#FFFFFF", some 256⟩).qrY <
      (svgUtils.svgLayout ⟨0, 0, 32, 32⟩ ⟨"Hi", ⟨24, "#333333", "Arial"⟩⟩
        ⟨"bottom", 20, "#FFFFFF", some 256⟩).textY) := by
  have h := claim_C9_title_qr_ordering (fun _ _ _ => (⟨100, 30⟩ : TextMetrics))
    ⟨256, 20, "#FFFFFF"⟩ () ⟨"Hi", ⟨24, "#333333", "Arial"⟩⟩
    ⟨0, 0, 32, 32⟩ ⟨"bottom", 20, "#FFFFFF", some 256⟩
    (by norm_num) (by norm_num) (by norm_num) (by norm_num) (by norm_num)
    (by norm_num) (by rintro q ⟨rfl⟩; norm_num)
  exact ⟨⟨by norm_num, by norm_num, by norm_num, by norm_num, by norm_num⟩,
    h.1, h.2.2.2 (by decide)⟩
